import Mathlib

/-
Verification of the residence-imputer core (src/core/fusion.py and
src/core/imputer.py) against its specification.

Modelling conventions:
- Python floats are modelled as exact rationals (all policy constants are
  short decimals).
- Python Optional[T] is Option T; Python truthiness of an optional string
  (None and the empty string are falsy) is the function strTruthy.
- A function that raises ValueError is modelled as returning
  Except String, the error carrying the message.
- The module-level policy constants of fusion.py (overridable by
  policy.py) are a Policy record threaded through the fusion functions;
  defaultPolicy carries the values shared by fusion.py and policy.py.
- Connector calls in imputer.py are modelled by passing each call result
  (evidence or raised error) as a parameter; the time-budget arithmetic
  does not influence which result a connector yields in this model.
-/

namespace ResidenceImputer

/-- Source literal from dto.py: origin of an evidence. -/
inductive Source where
  | DCO
  | SIGGES
  | NLP
deriving DecidableEq

/-- AddressQuality literal from dto.py. -/
inductive AddressQuality where
  | EXACT
  | PARTIAL
  | UNKNOWN
deriving DecidableEq

/-- ResidenceEvidence dataclass from dto.py (as_of_date modelled as an
opaque optional day number; it is never read by the core logic). -/
structure ResidenceEvidence where
  origin : Source
  comuna_code : Option String
  address : Option String
  p_model : Option ℚ
  model_ver : Option String
  as_of_date : Option Nat
deriving DecidableEq

/-- DecisionCore dataclass from fusion.py. -/
structure DecisionCore where
  comuna_code : String
  address : String
  confidence : ℚ
  sources : List Source
  rule_path : String
  tie_break_reason : Option String
deriving DecidableEq

/-- Policy constants of fusion.py (module-level defaults, identical to the
values exported by policy.py). -/
structure Policy where
  PREFER_NLP : Bool
  W_NLP : ℚ
  BOOST_AGREE : ℚ
  ADDR_BONUS_SIGGES : ℚ
  ADDR_BONUS_NLP : ℚ
  NLP_P_DEFAULT : ℚ
  DCO_BASE_CONF : ℚ
  DCO_NO_ADDRESS_PENALTY : ℚ
  SIGGES_ONLY_BASE : ℚ

/-- The default policy values (fusion.py lines 19-29, policy.py). -/
def defaultPolicy : Policy :=
  { PREFER_NLP := true
    W_NLP := 9/10
    BOOST_AGREE := 3/20
    ADDR_BONUS_SIGGES := 1/20
    ADDR_BONUS_NLP := 3/100
    NLP_P_DEFAULT := 7/10
    DCO_BASE_CONF := 49/50
    DCO_NO_ADDRESS_PENALTY := 23/25
    SIGGES_ONLY_BASE := 13/20 }

/-- Python truthiness of an Optional[str]: None and the empty string are
falsy, every other string is truthy. -/
def strTruthy : Option String → Bool
  | none => false
  | some s => !(s == "")

/-- Truthiness of the compound condition used in decide_alive, for example
nlp_ev and nlp_ev.comuna_code: the evidence object must be present (a
dataclass instance is always truthy) and its comuna_code truthy. -/
def evTruthyComuna : Option ResidenceEvidence → Bool
  | none => false
  | some ev => strTruthy ev.comuna_code

/-- clamp from fusion.py line 76. -/
def clamp (x lo hi : ℚ) : ℚ :=
  if x > hi then hi else if x < lo then lo else x

/-- clamp with its default arguments lo = 0.0, hi = 1.0, as every call
site in fusion.py uses it. -/
def clamp01 (x : ℚ) : ℚ :=
  clamp x 0 1

/-- quality_to_weight from fusion.py lines 80-91. -/
def quality_to_weight : Option AddressQuality → ℚ
  | some AddressQuality.EXACT => 1
  | some AddressQuality.PARTIAL => 7/10
  | some AddressQuality.UNKNOWN => 2/5
  | _ => 0

/-- default_addr_weight from fusion.py lines 94-104. -/
def default_addr_weight (source : Source) (address : Option String) : ℚ :=
  if strTruthy address = false then 0
  else if source = Source.SIGGES then 7/10 else 1/2

/-- The inline conditional repeated at fusion.py lines 154-158, 164-168
and 191-195: use quality_to_weight when an explicit hint was passed,
otherwise the source heuristic default_addr_weight. -/
def quality_weight_used (hint : Option AddressQuality) (source : Source)
    (address : Option String) : ℚ :=
  match hint with
  | some q => quality_to_weight (some q)
  | none => default_addr_weight source address

/-- Error message raised by decide_deceased (fusion.py line 116). -/
def dcoRequiredMsg : String :=
  "DCO evidence required with comuna_code for deceased path"

/-- Error message raised by decide_alive (fusion.py line 207). -/
def aliveInsufficientMsg : String :=
  "Insufficient evidence to decide for alive path (no comuna from NLP or SIGGES)"

/-- decide_deceased from fusion.py lines 111-127.  The Python parameter is
typed ResidenceEvidence but the body also guards against None, so the
model takes an Option. -/
def decide_deceased (pol : Policy) (dco_ev : Option ResidenceEvidence) :
    Except String DecisionCore :=
  match dco_ev with
  | none => Except.error dcoRequiredMsg
  | some ev =>
    match ev.comuna_code with
    | none => Except.error dcoRequiredMsg
    | some c =>
      let completeness : ℚ :=
        if strTruthy ev.address then 1 else pol.DCO_NO_ADDRESS_PENALTY
      let confidence := clamp01 (pol.DCO_BASE_CONF * completeness)
      Except.ok
        { comuna_code := c
          address := ev.address.getD ""
          confidence := confidence
          sources := [Source.DCO]
          rule_path := "DECEASED_DCO"
          tie_break_reason := none }

/-- Case 1 of decide_alive (fusion.py lines 148-186): the NLP evidence is
present and carries a truthy comuna code ncode. -/
def aliveNlpCase (pol : Policy) (nlp : ResidenceEvidence) (ncode : String)
    (sigges_ev : Option ResidenceEvidence)
    (addr_quality_sigges addr_quality_nlp : Option AddressQuality) :
    DecisionCore :=
  let agree : Bool :=
    match sigges_ev with
    | none => false
    | some sg => sg.comuna_code == some ncode
  let siggesAddr : Option String :=
    match sigges_ev with
    | none => none
    | some sg => sg.address
  let address : String :=
    if agree then siggesAddr.getD "" else nlp.address.getD ""
  let addr_bonus : ℚ :=
    if agree then
      pol.ADDR_BONUS_SIGGES *
        quality_weight_used addr_quality_sigges Source.SIGGES siggesAddr
    else
      pol.ADDR_BONUS_NLP *
        quality_weight_used addr_quality_nlp Source.NLP nlp.address
  let sources : List Source :=
    if agree then [Source.NLP, Source.SIGGES] else [Source.NLP]
  let rule_path : String :=
    if agree then "ALIVE_NLP_AGREE_SIGGES" else "ALIVE_NLP_DISAGREE"
  let p : ℚ := nlp.p_model.getD pol.NLP_P_DEFAULT
  let base := pol.W_NLP * p
  let boost : ℚ := if agree then pol.BOOST_AGREE else 0
  let confidence := clamp01 (base + boost + addr_bonus)
  { comuna_code := ncode
    address := address
    confidence := confidence
    sources := sources
    rule_path := rule_path
    tie_break_reason := none }

/-- Cases 2 and 3 of decide_alive (fusion.py lines 188-207): NLP supplied
no truthy comuna; use SIGGES if it carries one, otherwise raise. -/
def aliveSiggesTail (pol : Policy) (sigges_ev : Option ResidenceEvidence)
    (addr_quality_sigges : Option AddressQuality) :
    Except String DecisionCore :=
  match sigges_ev with
  | none => Except.error aliveInsufficientMsg
  | some sg =>
    match sg.comuna_code with
    | none => Except.error aliveInsufficientMsg
    | some scode =>
      if scode = "" then Except.error aliveInsufficientMsg
      else
        let address := sg.address.getD ""
        let q_sigges :=
          quality_weight_used addr_quality_sigges Source.SIGGES sg.address
        let confidence :=
          clamp01 (pol.SIGGES_ONLY_BASE + pol.ADDR_BONUS_SIGGES * q_sigges)
        Except.ok
          { comuna_code := scode
            address := address
            confidence := confidence
            sources := [Source.SIGGES]
            rule_path := "ALIVE_SIGGES_ONLY"
            tie_break_reason := none }

/-- decide_alive from fusion.py lines 130-207. -/
def decide_alive (pol : Policy) (nlp_ev sigges_ev : Option ResidenceEvidence)
    (addr_quality_sigges addr_quality_nlp : Option AddressQuality) :
    Except String DecisionCore :=
  match nlp_ev with
  | none => aliveSiggesTail pol sigges_ev addr_quality_sigges
  | some nlp =>
    match nlp.comuna_code with
    | none => aliveSiggesTail pol sigges_ev addr_quality_sigges
    | some ncode =>
      if ncode = "" then aliveSiggesTail pol sigges_ev addr_quality_sigges
      else
        Except.ok
          (aliveNlpCase pol nlp ncode sigges_ev addr_quality_sigges
            addr_quality_nlp)

/-- Errors a port (connector) may raise (ports.py: NotFoundError,
DataQualityError, AuthError, plus the standard TimeoutError). -/
inductive PortErr where
  | notFound
  | dataQuality
  | auth
  | timeout
deriving DecidableEq

/-- Display text of a port error, used when imputer.py interpolates the
caught exception into the ValueError message. -/
def portErrText : PortErr → String
  | PortErr.notFound => "NotFoundError"
  | PortErr.dataQuality => "DataQualityError"
  | PortErr.auth => "AuthError"
  | PortErr.timeout => "TimeoutError"

/-- Message of the ValueError re-raised by _safe_fetch_dco
(imputer.py line 125). -/
def dcoFailMsg (e : PortErr) : String :=
  "DCOReader.fetch failed for deceased path: " ++ portErrText e

/-- MapperCatalog port (ports.py lines 106-131) as pure lookup functions;
to_comuna_code is unused by the orchestrator and omitted. -/
structure MapperCatalog where
  to_region_code : String → String
  to_comuna_name : String → String
  to_region_name : String → String

/-- AddressNormalizer port (ports.py lines 93-102): a pure function from a
raw address to a standardized address and a quality. -/
def Normalizer : Type :=
  String → String × AddressQuality

/-- Decision dataclass from dto.py (the final contract object). -/
structure Decision where
  region : String
  region_code : String
  comuna : String
  comuna_code : String
  address : String
  confidence : ℚ
  sources : List Source
  audit_id : String
deriving DecidableEq

/-- _safe_fetch_dco from imputer.py lines 116-125: a successful fetch is
passed through, any raised exception is re-raised as a ValueError. -/
def safe_fetch_dco (fetchResult : Except PortErr ResidenceEvidence) :
    Except String ResidenceEvidence :=
  match fetchResult with
  | Except.ok ev => Except.ok ev
  | Except.error e => Except.error (dcoFailMsg e)

/-- The shared body of _safe_fetch_sigges_with_quality (imputer.py lines
127-144) and _safe_infer_nlp_with_quality (lines 146-162) after the
connector call returned: if the evidence has a truthy address and a
normalizer is configured, standardize the address in place and capture
the quality; any raised exception degrades to (None, None). -/
def safeWithQuality (normalizer : Option Normalizer)
    (fetchResult : Except PortErr ResidenceEvidence) :
    Option ResidenceEvidence × Option AddressQuality :=
  match fetchResult with
  | Except.error _ => (none, none)
  | Except.ok ev =>
    match normalizer, ev.address with
    | some f, some a =>
      if a = "" then (some ev, none)
      else
        let std := (f a).1
        let q := (f a).2
        (some { ev with address := some std }, some q)
    | _, _ => (some ev, none)

/-- _safe_fetch_sigges_with_quality from imputer.py lines 127-144,
applied to the result of the SIGGES connector call. -/
def safe_fetch_sigges_with_quality (normalizer : Option Normalizer)
    (fetchResult : Except PortErr ResidenceEvidence) :
    Option ResidenceEvidence × Option AddressQuality :=
  safeWithQuality normalizer fetchResult

/-- _safe_infer_nlp_with_quality from imputer.py lines 146-162, applied to
the result of the NLP connector call. -/
def safe_infer_nlp_with_quality (normalizer : Option Normalizer)
    (inferResult : Except PortErr ResidenceEvidence) :
    Option ResidenceEvidence × Option AddressQuality :=
  safeWithQuality normalizer inferResult

/-- _complete_decision from imputer.py lines 164-185. -/
def complete_decision (mapper : MapperCatalog) (core : DecisionCore)
    (audit_id : String) : Decision :=
  let comuna_code := core.comuna_code
  let region_code := mapper.to_region_code comuna_code
  let comuna_name := mapper.to_comuna_name comuna_code
  let region_name := mapper.to_region_name region_code
  { region := region_name
    region_code := region_code
    comuna := comuna_name
    comuna_code := comuna_code
    address := if core.address = "" then "" else core.address
    confidence := core.confidence
    sources := core.sources
    audit_id := audit_id }

/-- The list comprehension of imputer.py line 100: the truthy ones among
(ges_text, noges_text). -/
def truthyTexts (ges_text noges_text : Option String) : List String :=
  (match ges_text with
   | some t => if t = "" then [] else [t]
   | none => []) ++
  (match noges_text with
   | some t => if t = "" then [] else [t]
   | none => [])

/-- The in-place DCO address normalization of imputer.py lines 87-89:
performed only when a normalizer is configured and the address is truthy;
the quality hint is discarded on this path. -/
def normalizeDcoAddress (normalizer : Option Normalizer)
    (ev : ResidenceEvidence) : ResidenceEvidence :=
  match normalizer, ev.address with
  | some f, some a =>
    if a = "" then ev else { ev with address := some (f a).1 }
  | _, _ => ev

/-- ResidenceImputer.decide from imputer.py lines 63-112.  Each connector
call is represented by its outcome (evidence or raised error); the
monotonic-clock budget arithmetic selects deadlines but never changes
which branch runs, so it is not modelled. -/
def decide (pol : Policy) (mapper : MapperCatalog)
    (normalizer : Option Normalizer)
    (dcoResult siggesResult nlpResult : Except PortErr ResidenceEvidence)
    (vital_status : Int) (ges_text noges_text : Option String)
    (audit_id : String) : Except String Decision :=
  if vital_status = 2 then
    match safe_fetch_dco dcoResult with
    | Except.error m => Except.error m
    | Except.ok ev0 =>
      let dco_ev := normalizeDcoAddress normalizer ev0
      match decide_deceased pol (some dco_ev) with
      | Except.error m => Except.error m
      | Except.ok core => Except.ok (complete_decision mapper core audit_id)
  else
    let sq := safe_fetch_sigges_with_quality normalizer siggesResult
    let texts := truthyTexts ges_text noges_text
    let nq :=
      if texts = [] then (none, none)
      else safe_infer_nlp_with_quality normalizer nlpResult
    match decide_alive pol nq.1 sq.1 sq.2 nq.2 with
    | Except.error m => Except.error m
    | Except.ok core => Except.ok (complete_decision mapper core audit_id)

/-
Concrete values used to instantiate the theorems below.
-/

/-- A constant catalog for instantiating the orchestrator. -/
def mapperConst : MapperCatalog :=
  { to_region_code := fun _ => "05"
    to_comuna_name := fun _ => "Comuna"
    to_region_name := fun _ => "Region" }

/-- NLP evidence: comuna 05101, model probability 0.8, no address. -/
def nlpEv05101 : ResidenceEvidence :=
  { origin := Source.NLP
    comuna_code := some "05101"
    address := none
    p_model := some (4/5)
    model_ver := none
    as_of_date := none }

/-- SIGGES evidence agreeing on comuna 05101, with an address. -/
def siggesEv05101 : ResidenceEvidence :=
  { origin := Source.SIGGES
    comuna_code := some "05101"
    address := some "Av. X 100"
    p_model := none
    model_ver := none
    as_of_date := none }

/-- The decision the code produces in the agreement scenario:
confidence 0.92 = clamp01 of 0.90 times 0.8 plus 0.15 plus 0.05 times 1. -/
def coreAgree92 : DecisionCore :=
  { comuna_code := "05101"
    address := "Av. X 100"
    confidence := 23/25
    sources := [Source.NLP, Source.SIGGES]
    rule_path := "ALIVE_NLP_AGREE_SIGGES"
    tie_break_reason := none }

/-- The decision the code produces in the NLP-only scenario:
confidence 0.72 = clamp01 of 0.90 times 0.8. -/
def coreDisagree72 : DecisionCore :=
  { comuna_code := "05101"
    address := ""
    confidence := 18/25
    sources := [Source.NLP]
    rule_path := "ALIVE_NLP_DISAGREE"
    tie_break_reason := none }

/-- DCO evidence with a comuna and no address. -/
def evDcoNoAddr : ResidenceEvidence :=
  { origin := Source.DCO
    comuna_code := some "05101"
    address := none
    p_model := none
    model_ver := none
    as_of_date := none }

/-- DCO evidence whose comuna_code is the empty string (not None): it
passes the None-only guard of decide_deceased. -/
def evDcoEmptyComuna : ResidenceEvidence :=
  { origin := Source.DCO
    comuna_code := some ""
    address := some "Calle 1"
    p_model := none
    model_ver := none
    as_of_date := none }

/-- SIGGES evidence with comuna 13101 and an address. -/
def siggesEv13101 : ResidenceEvidence :=
  { origin := Source.SIGGES
    comuna_code := some "13101"
    address := some "Av. B 2"
    p_model := none
    model_ver := none
    as_of_date := none }

/-- NLP evidence whose comuna_code is the empty string. -/
def nlpEvEmptyComuna : ResidenceEvidence :=
  { origin := Source.NLP
    comuna_code := some ""
    address := some "Av. C 3"
    p_model := some (3/5)
    model_ver := none
    as_of_date := none }

/-- NLP evidence with comuna 13101, an address and a model probability,
used on the degraded-SIGGES orchestrator path. -/
def nlpEv13101 : ResidenceEvidence :=
  { origin := Source.NLP
    comuna_code := some "13101"
    address := some "Calle 2"
    p_model := some (1/2)
    model_ver := none
    as_of_date := none }

/-
Helper lemmas shared by the claim theorems.
-/

/-- clamp with bounds 0, 1 never goes below 0. -/
lemma clamp01_nonneg (x : ℚ) : 0 ≤ clamp01 x := by
  unfold clamp01 clamp
  split_ifs <;> linarith

/-- clamp with bounds 0, 1 never exceeds 1. -/
lemma clamp01_le_one (x : ℚ) : clamp01 x ≤ 1 := by
  unfold clamp01 clamp
  split_ifs <;> linarith

/-- decide_deceased on a missing evidence raises. -/
lemma decide_deceased_none (pol : Policy) :
    decide_deceased pol none = Except.error dcoRequiredMsg := rfl

/-- decide_deceased on evidence without comuna_code raises. -/
lemma decide_deceased_noComuna (pol : Policy) (e : ResidenceEvidence)
    (hc : e.comuna_code = none) :
    decide_deceased pol (some e) = Except.error dcoRequiredMsg := by
  simp [decide_deceased, hc]

/-- decide_deceased on evidence with a comuna_code: full output record. -/
lemma decide_deceased_some (pol : Policy) (e : ResidenceEvidence) (c : String)
    (hc : e.comuna_code = some c) :
    decide_deceased pol (some e) = Except.ok
      { comuna_code := c
        address := e.address.getD ""
        confidence := clamp01 (pol.DCO_BASE_CONF *
          (if strTruthy e.address then 1 else pol.DCO_NO_ADDRESS_PENALTY))
        sources := [Source.DCO]
        rule_path := "DECEASED_DCO"
        tie_break_reason := none } := by
  simp [decide_deceased, hc]

/-- When the NLP evidence carries no truthy comuna, decide_alive falls
through to the SIGGES tail. -/
lemma decide_alive_notruthy (pol : Policy)
    (nlp_ev sigges_ev : Option ResidenceEvidence)
    (qs qn : Option AddressQuality)
    (h : evTruthyComuna nlp_ev = false) :
    decide_alive pol nlp_ev sigges_ev qs qn =
      aliveSiggesTail pol sigges_ev qs := by
  cases nlp_ev with
  | none => rfl
  | some nlp =>
    cases hc : nlp.comuna_code with
    | none => simp [decide_alive, hc]
    | some s =>
      have hs : s = "" := by
        simp [evTruthyComuna, strTruthy, hc] at h
        exact h
      simp [decide_alive, hc, hs]

/-- When the NLP evidence carries a truthy comuna, decide_alive returns
the case-1 decision. -/
lemma decide_alive_truthy (pol : Policy) (nlp : ResidenceEvidence)
    (ncode : String) (sigges_ev : Option ResidenceEvidence)
    (qs qn : Option AddressQuality)
    (hc : nlp.comuna_code = some ncode) (hne : ncode ≠ "") :
    decide_alive pol (some nlp) sigges_ev qs qn =
      Except.ok (aliveNlpCase pol nlp ncode sigges_ev qs qn) := by
  simp [decide_alive, hc, hne]

/-- The SIGGES tail raises exactly when SIGGES carries no truthy comuna. -/
lemma aliveSiggesTail_notruthy (pol : Policy)
    (sigges_ev : Option ResidenceEvidence) (qs : Option AddressQuality)
    (h : evTruthyComuna sigges_ev = false) :
    aliveSiggesTail pol sigges_ev qs = Except.error aliveInsufficientMsg := by
  cases sigges_ev with
  | none => rfl
  | some sg =>
    cases hc : sg.comuna_code with
    | none => simp [aliveSiggesTail, hc]
    | some s =>
      have hs : s = "" := by
        simp [evTruthyComuna, strTruthy, hc] at h
        exact h
      simp [aliveSiggesTail, hc, hs]

/-- The SIGGES tail on a truthy SIGGES comuna: full output record. -/
lemma aliveSiggesTail_some (pol : Policy) (sg : ResidenceEvidence)
    (scode : String) (qs : Option AddressQuality)
    (hc : sg.comuna_code = some scode) (hne : scode ≠ "") :
    aliveSiggesTail pol (some sg) qs = Except.ok
      { comuna_code := scode
        address := sg.address.getD ""
        confidence := clamp01 (pol.SIGGES_ONLY_BASE +
          pol.ADDR_BONUS_SIGGES * quality_weight_used qs Source.SIGGES sg.address)
        sources := [Source.SIGGES]
        rule_path := "ALIVE_SIGGES_ONLY"
        tie_break_reason := none } := by
  simp [aliveSiggesTail, hc, hne]

/-- Case 1 with agreement: full output record. -/
lemma aliveNlpCase_agree (pol : Policy) (nlp sg : ResidenceEvidence)
    (ncode : String) (qs qn : Option AddressQuality)
    (hsg : sg.comuna_code = some ncode) :
    aliveNlpCase pol nlp ncode (some sg) qs qn =
      { comuna_code := ncode
        address := sg.address.getD ""
        confidence := clamp01 (pol.W_NLP * nlp.p_model.getD pol.NLP_P_DEFAULT +
          pol.BOOST_AGREE +
          pol.ADDR_BONUS_SIGGES * quality_weight_used qs Source.SIGGES sg.address)
        sources := [Source.NLP, Source.SIGGES]
        rule_path := "ALIVE_NLP_AGREE_SIGGES"
        tie_break_reason := none } := by
  simp [aliveNlpCase, hsg]

/-- Case 1 with disagreement (SIGGES absent or with a different comuna):
full output record. -/
lemma aliveNlpCase_disagree (pol : Policy) (nlp : ResidenceEvidence)
    (ncode : String) (sigges_ev : Option ResidenceEvidence)
    (qs qn : Option AddressQuality)
    (hdis : ∀ sg, sigges_ev = some sg → sg.comuna_code ≠ some ncode) :
    aliveNlpCase pol nlp ncode sigges_ev qs qn =
      { comuna_code := ncode
        address := nlp.address.getD ""
        confidence := clamp01 (pol.W_NLP * nlp.p_model.getD pol.NLP_P_DEFAULT +
          pol.ADDR_BONUS_NLP * quality_weight_used qn Source.NLP nlp.address)
        sources := [Source.NLP]
        rule_path := "ALIVE_NLP_DISAGREE"
        tie_break_reason := none } := by
  cases sigges_ev with
  | none => simp [aliveNlpCase]
  | some sg =>
    have hb : (sg.comuna_code == some ncode) = false :=
      beq_eq_false_iff_ne.mpr (hdis sg rfl)
    simp [aliveNlpCase, hb]

/-- Destructuring a truthy optional-evidence comuna: the evidence exists
and its comuna_code is a non-empty string. -/
lemma evTruthy_dest (o : Option ResidenceEvidence)
    (h : evTruthyComuna o = true) :
    ∃ ev c, o = some ev ∧ ev.comuna_code = some c ∧ c ≠ "" := by
  cases o with
  | none => simp [evTruthyComuna] at h
  | some ev =>
    cases hc : ev.comuna_code with
    | none => simp [evTruthyComuna, strTruthy, hc] at h
    | some c =>
      refine ⟨ev, c, rfl, hc, ?_⟩
      simpa [evTruthyComuna, strTruthy, hc] using h

/-- Every successful decide_alive result has a clamped confidence and a
non-empty comuna code. -/
lemma decide_alive_ok_shape (pol : Policy)
    (nlp_ev sigges_ev : Option ResidenceEvidence)
    (qs qn : Option AddressQuality) (d : DecisionCore)
    (h : decide_alive pol nlp_ev sigges_ev qs qn = Except.ok d) :
    (∃ x, d.confidence = clamp01 x) ∧ d.comuna_code ≠ "" := by
  cases ht : evTruthyComuna nlp_ev with
  | true =>
    obtain ⟨nlp, c, rfl, hc, hne⟩ := evTruthy_dest _ ht
    rw [decide_alive_truthy pol nlp c sigges_ev qs qn hc hne] at h
    have hd : aliveNlpCase pol nlp c sigges_ev qs qn = d := by
      simpa using h
    subst hd
    exact ⟨⟨_, rfl⟩, hne⟩
  | false =>
    rw [decide_alive_notruthy pol nlp_ev sigges_ev qs qn ht] at h
    cases hs : evTruthyComuna sigges_ev with
    | false =>
      rw [aliveSiggesTail_notruthy pol sigges_ev qs hs] at h
      simp at h
    | true =>
      obtain ⟨sg, sc, rfl, hsc, hsne⟩ := evTruthy_dest _ hs
      rw [aliveSiggesTail_some pol sg sc qs hsc hsne] at h
      have hd := Except.ok.inj h
      subst hd
      exact ⟨⟨_, rfl⟩, hsne⟩

/-- A connector failure is degraded to absent evidence and absent quality
by the shared safe-call body. -/
lemma safeWithQuality_error (normalizer : Option Normalizer) (e : PortErr) :
    safeWithQuality normalizer (Except.error e) = (none, none) := rfl

/-- A connector success is passed through by the shared safe-call body;
the address may be standardized but comuna and model probability stay. -/
lemma safeWithQuality_ok (normalizer : Option Normalizer)
    (ev : ResidenceEvidence) :
    ∃ ev' q, safeWithQuality normalizer (Except.ok ev) = (some ev', q) ∧
      ev'.comuna_code = ev.comuna_code ∧ ev'.p_model = ev.p_model := by
  cases hn : normalizer with
  | none =>
    refine ⟨ev, none, ?_, rfl, rfl⟩
    cases ha : ev.address <;> simp [safeWithQuality, ha]
  | some f =>
    cases ha : ev.address with
    | none => exact ⟨ev, none, by simp [safeWithQuality, ha], rfl, rfl⟩
    | some a =>
      by_cases he : a = ""
      · exact ⟨ev, none, by simp [safeWithQuality, ha, he], rfl, rfl⟩
      · refine ⟨{ ev with address := some (f a).1 }, some (f a).2, ?_, rfl, rfl⟩
        simp [safeWithQuality, ha, he]

/-- On the deceased path a DCO connector failure surfaces as the re-raised
ValueError of _safe_fetch_dco. -/
lemma decide_deceased_path_error (pol : Policy) (mapper : MapperCatalog)
    (normalizer : Option Normalizer)
    (siggesResult nlpResult : Except PortErr ResidenceEvidence)
    (ges_text noges_text : Option String) (audit_id : String) (e : PortErr) :
    decide pol mapper normalizer (Except.error e) siggesResult nlpResult 2
      ges_text noges_text audit_id = Except.error (dcoFailMsg e) := by
  simp [decide, safe_fetch_dco]

/-
Claim theorems.
-/

/-- C1: for every evidence input and every policy (including policies with
constants outside the unit interval), the confidence of the DecisionCore
returned by decide_deceased and by every branch of decide_alive lies in
the interval from 0 to 1. -/
theorem claim_C1_confidence_in_unit_interval :
    ∀ (pol : Policy) (dco_ev nlp_ev sigges_ev : Option ResidenceEvidence)
      (qs qn : Option AddressQuality) (d : DecisionCore),
    (decide_deceased pol dco_ev = Except.ok d →
      0 ≤ d.confidence ∧ d.confidence ≤ 1) ∧
    (decide_alive pol nlp_ev sigges_ev qs qn = Except.ok d →
      0 ≤ d.confidence ∧ d.confidence ≤ 1) := by
  intro pol dco_ev nlp_ev sigges_ev qs qn d
  constructor
  · intro h
    cases dco_ev with
    | none => rw [decide_deceased_none] at h; simp at h
    | some e =>
      cases hc : e.comuna_code with
      | none => rw [decide_deceased_noComuna pol e hc] at h; simp at h
      | some c =>
        rw [decide_deceased_some pol e c hc] at h
        have hd := Except.ok.inj h
        subst hd
        exact ⟨clamp01_nonneg _, clamp01_le_one _⟩
  · intro h
    obtain ⟨⟨x, hx⟩, _⟩ :=
      decide_alive_ok_shape pol nlp_ev sigges_ev qs qn d h
    rw [hx]
    exact ⟨clamp01_nonneg _, clamp01_le_one _⟩

/-- Witness for C1 at the agreement scenario. -/
theorem claim_C1_witness :
    0 ≤ coreAgree92.confidence ∧ coreAgree92.confidence ≤ 1 :=
  (claim_C1_confidence_in_unit_interval defaultPolicy (some evDcoNoAddr)
    (some nlpEv05101) (some siggesEv05101) (some AddressQuality.EXACT) none
    coreAgree92).2 (by
      simp [decide_alive, aliveNlpCase, nlpEv05101, siggesEv05101, coreAgree92,
        defaultPolicy, quality_weight_used, quality_to_weight, clamp01, clamp]
      norm_num)

/-- C2: decide_deceased raises the domain error for absent evidence or a
missing comuna_code; with a comuna_code it returns confidence
DCO_BASE_CONF = 0.98 when a (non-empty) address is present, and exactly
DCO_BASE_CONF times DCO_NO_ADDRESS_PENALTY when the address is absent,
with sources DCO only and rule_path DECEASED_DCO. -/
theorem claim_C2_decide_deceased_spec :
    ∀ (e : ResidenceEvidence) (c : String),
    (decide_deceased defaultPolicy none = Except.error dcoRequiredMsg) ∧
    (e.comuna_code = none →
      decide_deceased defaultPolicy (some e) = Except.error dcoRequiredMsg) ∧
    (e.comuna_code = some c → strTruthy e.address = true →
      decide_deceased defaultPolicy (some e) = Except.ok
        { comuna_code := c
          address := e.address.getD ""
          confidence := 49/50
          sources := [Source.DCO]
          rule_path := "DECEASED_DCO"
          tie_break_reason := none }) ∧
    (e.comuna_code = some c → strTruthy e.address = false →
      decide_deceased defaultPolicy (some e) = Except.ok
        { comuna_code := c
          address := e.address.getD ""
          confidence := 49/50 * (23/25)
          sources := [Source.DCO]
          rule_path := "DECEASED_DCO"
          tie_break_reason := none }) := by
  intro e c
  refine ⟨decide_deceased_none _, decide_deceased_noComuna _ e, ?_, ?_⟩
  · intro hc ha
    rw [decide_deceased_some defaultPolicy e c hc]
    simp [ha, defaultPolicy]
    norm_num [clamp01, clamp]
  · intro hc ha
    rw [decide_deceased_some defaultPolicy e c hc]
    simp [ha, defaultPolicy]
    norm_num [clamp01, clamp]

/-- Witness for C2: deceased evidence with comuna 05101 and an address
gives confidence exactly 0.98. -/
theorem claim_C2_witness :
    decide_deceased defaultPolicy (some siggesEv05101) = Except.ok
      { comuna_code := "05101"
        address := "Av. X 100"
        confidence := 49/50
        sources := [Source.DCO]
        rule_path := "DECEASED_DCO"
        tie_break_reason := none } :=
  (claim_C2_decide_deceased_spec siggesEv05101 "05101").2.2.1 rfl rfl

/-- C3: decide_alive raises the insufficient-evidence error exactly when
neither the NLP evidence nor the SIGGES evidence carries a (non-empty)
comuna code; with a comuna from either source it never raises this
error, so no low-confidence fallback decision is ever produced in the
no-comuna case. -/
theorem claim_C3_alive_error_iff_no_comuna :
    ∀ (pol : Policy) (nlp_ev sigges_ev : Option ResidenceEvidence)
      (qs qn : Option AddressQuality),
    decide_alive pol nlp_ev sigges_ev qs qn =
        Except.error aliveInsufficientMsg ↔
      evTruthyComuna nlp_ev = false ∧ evTruthyComuna sigges_ev = false := by
  intro pol nlp_ev sigges_ev qs qn
  constructor
  · intro h
    cases ht : evTruthyComuna nlp_ev with
    | true =>
      obtain ⟨nl, c, rfl, hc, hne⟩ := evTruthy_dest _ ht
      rw [decide_alive_truthy pol nl c sigges_ev qs qn hc hne] at h
      simp at h
    | false =>
      refine ⟨rfl, ?_⟩
      rw [decide_alive_notruthy pol nlp_ev sigges_ev qs qn ht] at h
      cases hs : evTruthyComuna sigges_ev with
      | true =>
        obtain ⟨sge, sc, rfl, hsc, hsne⟩ := evTruthy_dest _ hs
        rw [aliveSiggesTail_some pol sge sc qs hsc hsne] at h
        simp at h
      | false => rfl
  · rintro ⟨h1, h2⟩
    rw [decide_alive_notruthy pol nlp_ev sigges_ev qs qn h1,
      aliveSiggesTail_notruthy pol sigges_ev qs h2]

/-- C4 counterexample: in the agreement scenario (NLP comuna 05101 with
probability 0.8, SIGGES comuna 05101 with address and quality EXACT) the
returned confidence is 0.92, not 1.0 as the claim asserts: the sum
0.90 times 0.8 plus 0.15 plus 0.05 is 0.92, which the clamp leaves
unchanged. -/
theorem claim_C4_counterexample :
    decide_alive defaultPolicy (some nlpEv05101) (some siggesEv05101)
      (some AddressQuality.EXACT) none = Except.ok coreAgree92 ∧
    coreAgree92.confidence ≠ 1 := by
  constructor
  · simp [decide_alive, aliveNlpCase, nlpEv05101, siggesEv05101, coreAgree92,
      defaultPolicy, quality_weight_used, quality_to_weight, clamp01, clamp]
    norm_num
  · norm_num [coreAgree92]

/-- C4 amended: in the agreement scenario decide_alive detects agreement
and returns sources NLP and SIGGES, rule_path ALIVE_NLP_AGREE_SIGGES, the
address from the claims evidence, and confidence
clamp(0.90 times 0.8 plus 0.15 plus 0.05 times 1.0) = clamp(0.92) = 0.92. -/
theorem claim_C4_agreement_scenario :
    decide_alive defaultPolicy (some nlpEv05101) (some siggesEv05101)
      (some AddressQuality.EXACT) none = Except.ok
        { comuna_code := "05101"
          address := "Av. X 100"
          confidence := 23/25
          sources := [Source.NLP, Source.SIGGES]
          rule_path := "ALIVE_NLP_AGREE_SIGGES"
          tie_break_reason := none } ∧
    (23/25 : ℚ) = clamp01 (9/10 * (4/5) + 3/20 + 1/20 * 1) := by
  constructor
  · simp [decide_alive, aliveNlpCase, nlpEv05101, siggesEv05101,
      defaultPolicy, quality_weight_used, quality_to_weight, clamp01, clamp]
    norm_num
  · norm_num [clamp01, clamp]

/-- C5: whenever NLP carries a (non-empty) comuna and SIGGES is absent or
carries a different comuna, decide_alive returns sources NLP only,
rule_path ALIVE_NLP_DISAGREE, the NLP address (fallback the empty
string), and confidence clamp(W_NLP times p plus ADDR_BONUS_NLP times the
quality weight of the NLP address), p defaulting to NLP_P_DEFAULT; in
particular comuna 05101, probability 0.8, no address and absent SIGGES
give confidence 0.72. -/
theorem claim_C5_nlp_disagree :
    (∀ (pol : Policy) (nlp : ResidenceEvidence) (ncode : String)
       (sigges_ev : Option ResidenceEvidence) (qs qn : Option AddressQuality),
      nlp.comuna_code = some ncode → ncode ≠ "" →
      (∀ sg, sigges_ev = some sg → sg.comuna_code ≠ some ncode) →
      decide_alive pol (some nlp) sigges_ev qs qn = Except.ok
        { comuna_code := ncode
          address := nlp.address.getD ""
          confidence := clamp01 (pol.W_NLP * nlp.p_model.getD pol.NLP_P_DEFAULT +
            pol.ADDR_BONUS_NLP * quality_weight_used qn Source.NLP nlp.address)
          sources := [Source.NLP]
          rule_path := "ALIVE_NLP_DISAGREE"
          tie_break_reason := none }) ∧
    decide_alive defaultPolicy (some nlpEv05101) none none none =
      Except.ok coreDisagree72 := by
  constructor
  · intro pol nlp ncode sigges_ev qs qn hc hne hdis
    rw [decide_alive_truthy pol nlp ncode sigges_ev qs qn hc hne,
      aliveNlpCase_disagree pol nlp ncode sigges_ev qs qn hdis]
  · simp [decide_alive, aliveNlpCase, nlpEv05101, coreDisagree72,
      defaultPolicy, quality_weight_used, default_addr_weight, strTruthy,
      clamp01, clamp]
    norm_num

/-- Witness for C5 at a present-but-disagreeing SIGGES evidence. -/
theorem claim_C5_witness :
    decide_alive defaultPolicy (some nlpEv13101) (some siggesEv05101)
      none none = Except.ok
      { comuna_code := "13101"
        address := nlpEv13101.address.getD ""
        confidence := clamp01 (defaultPolicy.W_NLP *
          nlpEv13101.p_model.getD defaultPolicy.NLP_P_DEFAULT +
          defaultPolicy.ADDR_BONUS_NLP *
          quality_weight_used none Source.NLP nlpEv13101.address)
        sources := [Source.NLP]
        rule_path := "ALIVE_NLP_DISAGREE"
        tie_break_reason := none } :=
  claim_C5_nlp_disagree.1 defaultPolicy nlpEv13101 "13101" (some siggesEv05101)
    none none rfl (by decide)
    (by
      intro sg hsg
      cases hsg
      simp [siggesEv05101])

/-- C6: when NLP supplies no (non-empty) comuna and SIGGES supplies one,
decide_alive returns comuna and address from the SIGGES evidence,
confidence clamp(SIGGES_ONLY_BASE plus ADDR_BONUS_SIGGES times the
quality weight of the SIGGES address), sources SIGGES only and rule_path
ALIVE_SIGGES_ONLY. -/
theorem claim_C6_sigges_only :
    ∀ (pol : Policy) (nlp_ev : Option ResidenceEvidence)
      (sg : ResidenceEvidence) (scode : String)
      (qs qn : Option AddressQuality),
    evTruthyComuna nlp_ev = false →
    sg.comuna_code = some scode → scode ≠ "" →
    decide_alive pol nlp_ev (some sg) qs qn = Except.ok
      { comuna_code := scode
        address := sg.address.getD ""
        confidence := clamp01 (pol.SIGGES_ONLY_BASE +
          pol.ADDR_BONUS_SIGGES *
          quality_weight_used qs Source.SIGGES sg.address)
        sources := [Source.SIGGES]
        rule_path := "ALIVE_SIGGES_ONLY"
        tie_break_reason := none } := by
  intro pol nlp_ev sg scode qs qn h1 h2 h3
  rw [decide_alive_notruthy pol nlp_ev (some sg) qs qn h1,
    aliveSiggesTail_some pol sg scode qs h2 h3]

/-- Witness for C6 with absent NLP evidence and SIGGES comuna 13101. -/
theorem claim_C6_witness :
    decide_alive defaultPolicy none (some siggesEv13101) none none =
      Except.ok
      { comuna_code := "13101"
        address := siggesEv13101.address.getD ""
        confidence := clamp01 (defaultPolicy.SIGGES_ONLY_BASE +
          defaultPolicy.ADDR_BONUS_SIGGES *
          quality_weight_used none Source.SIGGES siggesEv13101.address)
        sources := [Source.SIGGES]
        rule_path := "ALIVE_SIGGES_ONLY"
        tie_break_reason := none } :=
  claim_C6_sigges_only defaultPolicy none siggesEv13101 "13101" none none
    rfl rfl (by decide)

/-- C7: on the deceased path any DCO connector failure is re-raised as a
domain error through decide, never degraded; on the alive path every
SIGGES or NLP connector failure is caught and degraded to absent evidence
for that source only (each safe helper consumes only its own connector
result); in particular a SIGGES timeout while NLP succeeds with a valid
comuna still yields a successful decision built from NLP alone. -/
theorem claim_C7_connector_failure_policy :
    (∀ (pol : Policy) (mapper : MapperCatalog)
       (normalizer : Option Normalizer)
       (siggesResult nlpResult : Except PortErr ResidenceEvidence)
       (ges noges : Option String) (aid : String) (e : PortErr),
      decide pol mapper normalizer (Except.error e) siggesResult nlpResult 2
        ges noges aid = Except.error (dcoFailMsg e)) ∧
    (∀ (normalizer : Option Normalizer) (e : PortErr),
      safe_fetch_sigges_with_quality normalizer (Except.error e) =
          (none, none) ∧
      safe_infer_nlp_with_quality normalizer (Except.error e) =
          (none, none)) ∧
    (∀ (pol : Policy) (mapper : MapperCatalog)
       (normalizer : Option Normalizer)
       (dcoResult : Except PortErr ResidenceEvidence)
       (nlpEv : ResidenceEvidence) (v : Int) (ges noges : Option String)
       (aid : String),
      v ≠ 2 → truthyTexts ges noges ≠ [] →
      strTruthy nlpEv.comuna_code = true →
      ∃ dec,
        decide pol mapper normalizer dcoResult (Except.error PortErr.timeout)
          (Except.ok nlpEv) v ges noges aid = Except.ok dec ∧
        dec.sources = [Source.NLP]) := by
  refine ⟨?_, ?_, ?_⟩
  · intro pol mapper normalizer siggesResult nlpResult ges noges aid e
    exact decide_deceased_path_error pol mapper normalizer siggesResult
      nlpResult ges noges aid e
  · intro normalizer e
    exact ⟨rfl, rfl⟩
  · intro pol mapper normalizer dcoResult nlpEv v ges noges aid hv ht hcom
    obtain ⟨ev', q, hsw, hcomEq, _⟩ := safeWithQuality_ok normalizer nlpEv
    have hcom' : strTruthy ev'.comuna_code = true := by rw [hcomEq]; exact hcom
    obtain ⟨ev'', c, hev, hc, hne⟩ := evTruthy_dest (some ev') (by
      simpa [evTruthyComuna] using hcom')
    have hev' : ev'' = ev' := by injection hev.symm
    subst hev'
    have hda : decide_alive pol (some ev'') none none q =
        Except.ok (aliveNlpCase pol ev'' c none none q) :=
      decide_alive_truthy pol ev'' c none none q hc hne
    have hcase : aliveNlpCase pol ev'' c none none q =
        { comuna_code := c
          address := ev''.address.getD ""
          confidence := clamp01 (pol.W_NLP *
            ev''.p_model.getD pol.NLP_P_DEFAULT +
            pol.ADDR_BONUS_NLP * quality_weight_used q Source.NLP ev''.address)
          sources := [Source.NLP]
          rule_path := "ALIVE_NLP_DISAGREE"
          tie_break_reason := none } :=
      aliveNlpCase_disagree pol ev'' c none none q (by intro sg hsg; cases hsg)
    refine ⟨complete_decision mapper (aliveNlpCase pol ev'' c none none q) aid,
      ?_, ?_⟩
    · simp [decide, hv, safe_fetch_sigges_with_quality,
        safe_infer_nlp_with_quality, safeWithQuality_error, ht, hsw, hda]
    · rw [hcase]
      simp [complete_decision]

/-- Witness for C7: a SIGGES timeout on the alive path with a successful
NLP inference yields a decision sourced from NLP only. -/
theorem claim_C7_witness :
    (decide defaultPolicy mapperConst none (Except.error PortErr.notFound)
        (Except.error PortErr.timeout) (Except.ok nlpEv13101) 1
        (some "texto") none "audit-1").map Decision.sources =
      Except.ok [Source.NLP] := by
  obtain ⟨dec, h1, h2⟩ :=
    claim_C7_connector_failure_policy.2.2 defaultPolicy mapperConst none
      (Except.error PortErr.notFound) nlpEv13101 1 (some "texto") none
      "audit-1" (by decide) (by simp [truthyTexts]) rfl
  rw [h1]
  simp [Except.map, h2]

/-- C8 counterexample: decide_deceased guards only against a missing
(None) comuna_code, so evidence whose comuna_code is the empty string
passes the guard and fusion returns a DecisionCore with an empty
comuna_code, refuting the non-empty invariant as stated. -/
theorem claim_C8_counterexample :
    (decide_deceased defaultPolicy (some evDcoEmptyComuna)).map
      DecisionCore.comuna_code = Except.ok "" := by
  rfl

/-- C8 amended: every DecisionCore returned by decide_alive has a
non-empty comuna_code; decide_deceased rejects only a missing (None)
comuna_code and copies the evidence string verbatim, so its result has a
non-empty comuna_code exactly when the evidence string is non-empty. -/
theorem claim_C8_amended_nonempty_comuna :
    (∀ (pol : Policy) (nlp_ev sigges_ev : Option ResidenceEvidence)
       (qs qn : Option AddressQuality) (d : DecisionCore),
      decide_alive pol nlp_ev sigges_ev qs qn = Except.ok d →
        d.comuna_code ≠ "") ∧
    (∀ (pol : Policy) (e : ResidenceEvidence) (d : DecisionCore),
      decide_deceased pol (some e) = Except.ok d →
        e.comuna_code = some d.comuna_code) := by
  constructor
  · intro pol nlp_ev sigges_ev qs qn d h
    exact (decide_alive_ok_shape pol nlp_ev sigges_ev qs qn d h).2
  · intro pol e d h
    cases hc : e.comuna_code with
    | none => rw [decide_deceased_noComuna pol e hc] at h; simp at h
    | some c =>
      rw [decide_deceased_some pol e c hc] at h
      have hd := Except.ok.inj h
      subst hd
      rfl

/-- Witness for C8 amended at the NLP-only scenario. -/
theorem claim_C8_witness :
    coreDisagree72.comuna_code ≠ "" :=
  claim_C8_amended_nonempty_comuna.1 defaultPolicy (some nlpEv05101) none
    none none coreDisagree72 (by
      simp [decide_alive, aliveNlpCase, nlpEv05101, coreDisagree72,
        defaultPolicy, quality_weight_used, default_addr_weight, strTruthy,
        clamp01, clamp]
      norm_num)

/-- C9: the address-quality weight used for every address bonus of
decide_alive is quality_to_weight of the hint when one is supplied
(EXACT 1.0, PARTIAL 0.7, UNKNOWN 0.4, absent 0.0) and otherwise the
source heuristic default_addr_weight (0.0 without address text, else 0.7
for SIGGES and 0.5 for NLP), in each of the three branches. -/
theorem claim_C9_quality_weights :
    (quality_to_weight (some AddressQuality.EXACT) = 1 ∧
     quality_to_weight (some AddressQuality.PARTIAL) = 7/10 ∧
     quality_to_weight (some AddressQuality.UNKNOWN) = 2/5 ∧
     quality_to_weight none = 0) ∧
    (∀ s, default_addr_weight s none = 0 ∧
      default_addr_weight s (some "") = 0) ∧
    (∀ a, a ≠ "" → default_addr_weight Source.SIGGES (some a) = 7/10 ∧
      default_addr_weight Source.NLP (some a) = 1/2) ∧
    (∀ (q : AddressQuality) (s : Source) (addr : Option String),
      quality_weight_used (some q) s addr = quality_to_weight (some q)) ∧
    (∀ (s : Source) (addr : Option String),
      quality_weight_used none s addr = default_addr_weight s addr) ∧
    (∀ (pol : Policy) (nlp sg : ResidenceEvidence) (ncode : String)
       (qs qn : Option AddressQuality),
      nlp.comuna_code = some ncode → ncode ≠ "" →
      sg.comuna_code = some ncode →
      (decide_alive pol (some nlp) (some sg) qs qn).map
          DecisionCore.confidence =
        Except.ok (clamp01 (pol.W_NLP * nlp.p_model.getD pol.NLP_P_DEFAULT +
          pol.BOOST_AGREE + pol.ADDR_BONUS_SIGGES *
          quality_weight_used qs Source.SIGGES sg.address))) ∧
    (∀ (pol : Policy) (nlp : ResidenceEvidence) (ncode : String)
       (sigges_ev : Option ResidenceEvidence) (qs qn : Option AddressQuality),
      nlp.comuna_code = some ncode → ncode ≠ "" →
      (∀ sg, sigges_ev = some sg → sg.comuna_code ≠ some ncode) →
      (decide_alive pol (some nlp) sigges_ev qs qn).map
          DecisionCore.confidence =
        Except.ok (clamp01 (pol.W_NLP * nlp.p_model.getD pol.NLP_P_DEFAULT +
          pol.ADDR_BONUS_NLP *
          quality_weight_used qn Source.NLP nlp.address))) ∧
    (∀ (pol : Policy) (nlp_ev : Option ResidenceEvidence)
       (sg : ResidenceEvidence) (scode : String)
       (qs qn : Option AddressQuality),
      evTruthyComuna nlp_ev = false →
      sg.comuna_code = some scode → scode ≠ "" →
      (decide_alive pol nlp_ev (some sg) qs qn).map
          DecisionCore.confidence =
        Except.ok (clamp01 (pol.SIGGES_ONLY_BASE + pol.ADDR_BONUS_SIGGES *
          quality_weight_used qs Source.SIGGES sg.address))) := by
  refine ⟨⟨rfl, rfl, rfl, rfl⟩, ?_, ?_, ?_, ?_, ?_, ?_, ?_⟩
  · intro s
    exact ⟨rfl, by simp [default_addr_weight, strTruthy]⟩
  · intro a ha
    constructor <;> simp [default_addr_weight, strTruthy, ha]
  · intro q s addr
    rfl
  · intro s addr
    rfl
  · intro pol nlp sg ncode qs qn hc hne hsg
    rw [decide_alive_truthy pol nlp ncode (some sg) qs qn hc hne,
      aliveNlpCase_agree pol nlp sg ncode qs qn hsg]
    rfl
  · intro pol nlp ncode sigges_ev qs qn hc hne hdis
    rw [decide_alive_truthy pol nlp ncode sigges_ev qs qn hc hne,
      aliveNlpCase_disagree pol nlp ncode sigges_ev qs qn hdis]
    rfl
  · intro pol nlp_ev sg scode qs qn h1 h2 h3
    rw [decide_alive_notruthy pol nlp_ev (some sg) qs qn h1,
      aliveSiggesTail_some pol sg scode qs h2 h3]
    rfl

/-- Witness for C9 at the agreement scenario with an EXACT hint. -/
theorem claim_C9_witness :
    (decide_alive defaultPolicy (some nlpEv05101) (some siggesEv05101)
        (some AddressQuality.EXACT) none).map DecisionCore.confidence =
      Except.ok (clamp01 (defaultPolicy.W_NLP *
        nlpEv05101.p_model.getD defaultPolicy.NLP_P_DEFAULT +
        defaultPolicy.BOOST_AGREE + defaultPolicy.ADDR_BONUS_SIGGES *
        quality_weight_used (some AddressQuality.EXACT) Source.SIGGES
          siggesEv05101.address)) :=
  claim_C9_quality_weights.2.2.2.2.2.1 defaultPolicy nlpEv05101 siggesEv05101
    "05101" (some AddressQuality.EXACT) none rfl (by decide) rfl

/-- C10: NLP evidence whose comuna_code is the empty string behaves
exactly as absent NLP evidence: decide_alive produces the SIGGES-only
decision when SIGGES carries a non-empty comuna and the
insufficient-evidence error otherwise; the empty comuna is never used. -/
theorem claim_C10_empty_comuna_as_absent :
    ∀ (pol : Policy) (nlp : ResidenceEvidence)
      (sigges_ev : Option ResidenceEvidence) (qs qn : Option AddressQuality),
    nlp.comuna_code = some "" →
    (decide_alive pol (some nlp) sigges_ev qs qn =
      decide_alive pol none sigges_ev qs qn) ∧
    (evTruthyComuna sigges_ev = true →
      ∃ d, decide_alive pol (some nlp) sigges_ev qs qn = Except.ok d ∧
        d.rule_path = "ALIVE_SIGGES_ONLY") ∧
    (evTruthyComuna sigges_ev = false →
      decide_alive pol (some nlp) sigges_ev qs qn =
        Except.error aliveInsufficientMsg) := by
  intro pol nlp sigges_ev qs qn hc
  have hn : evTruthyComuna (some nlp) = false := by
    simp [evTruthyComuna, strTruthy, hc]
  have h1 : decide_alive pol (some nlp) sigges_ev qs qn =
      aliveSiggesTail pol sigges_ev qs :=
    decide_alive_notruthy pol (some nlp) sigges_ev qs qn hn
  refine ⟨?_, ?_, ?_⟩
  · rw [h1]; rfl
  · intro hs
    obtain ⟨sge, sc, rfl, hsc, hne⟩ := evTruthy_dest _ hs
    rw [h1, aliveSiggesTail_some pol sge sc qs hsc hne]
    exact ⟨_, rfl, rfl⟩
  · intro hs
    rw [h1, aliveSiggesTail_notruthy pol sigges_ev qs hs]

/-- Witness for C10 with an empty-string NLP comuna and SIGGES comuna
13101. -/
theorem claim_C10_witness :
    decide_alive defaultPolicy (some nlpEvEmptyComuna) (some siggesEv13101)
        none none =
      decide_alive defaultPolicy none (some siggesEv13101) none none :=
  (claim_C10_empty_comuna_as_absent defaultPolicy nlpEvEmptyComuna
    (some siggesEv13101) none none rfl).1

end ResidenceImputer
